import Mathlib

/-!
Shallow embedding of the circuit-breaker repository.

The repository contains two near-duplicate variants of one class:
a promise-style variant (with an ignores counter and a circuitFilter
predicate) and a callback-style variant (without them).  The
promise-style variant is embedded below at top level; the
callback-style variant is embedded in the CB1 namespace.

Conventions of the embedding:
- JavaScript numbers that only ever hold counts are Nat; the error
  percentage, computed by a division, is an exact rational.
- The observer callbacks onCircuitOpen and onCircuitClose are modelled
  as emitted events collected in a list, so a theorem can state exactly
  which callbacks a step invokes.
- The nullable _state and _forced fields are Option values.
- The timeout variable of _executeCommand, which doubles as the
  per-call exactly-once guard, is modelled as the Boolean
  timeoutActive; the race between command settlement and the deadline
  timer is modelled as a list of race events processed in order.
-/

/-- The three breaker states, as in the source enum. -/
inductive CircuitBreakerStatus
  | OPEN
  | HALF_OPEN
  | CLOSED
deriving DecidableEq, Repr

open CircuitBreakerStatus

/-- One time slice of counters, as in the promise-style variant. -/
structure Bucket where
  failures : Nat
  successes : Nat
  timeouts : Nat
  ignores : Nat
  shortCircuits : Nat
deriving DecidableEq, Repr

/-- Aggregated statistics over the retained buckets. -/
structure Metrics where
  totalCount : Nat
  errorCount : Nat
  errorPercentage : ℚ
deriving DecidableEq, Repr

/-- Observer callback invocations, recorded as events. -/
inductive CBEvent
  | circuitOpen (metrics : Metrics)
  | circuitClose (metrics : Metrics)
deriving DecidableEq, Repr

/-- The fresh empty bucket returned by _createBucket. -/
def _createBucket : Bucket :=
  { failures := 0, successes := 0, timeouts := 0, shortCircuits := 0, ignores := 0 }

/-- The mutable fields and configuration of the breaker object.
Defaults follow the constructor. -/
structure CircuitBreaker where
  windowDuration : Nat := 10000
  numBuckets : Nat := 10
  timeoutDuration : Nat := 3000
  errorThreshold : ℚ := 50
  volumeThreshold : Nat := 5
  buckets : List Bucket := [_createBucket]
  state : Option CircuitBreakerStatus := some CLOSED
  forced : Option CircuitBreakerStatus := none
deriving DecidableEq, Repr

/-- A breaker built with the default configuration. -/
def defaultBreaker : CircuitBreaker := {}

/-- The last element of the bucket list, the active bucket of _lastBucket. -/
def CircuitBreaker._lastBucket (b : CircuitBreaker) : Bucket :=
  b.buckets.getLastD _createBucket

/-- Mutation of the active (last) bucket in place. -/
def updateLast (f : Bucket → Bucket) : List Bucket → List Bucket
  | [] => []
  | [bk] => [f bk]
  | bk :: rest => bk :: updateLast f rest

/-- Which counter an outcome increments. -/
inductive CounterKind
  | successes
  | failures
  | timeouts
  | ignores
deriving DecidableEq, Repr

/-- The increment of one counter of a bucket. -/
def Bucket.incr (bk : Bucket) : CounterKind → Bucket
  | .successes => { bk with successes := bk.successes + 1 }
  | .failures => { bk with failures := bk.failures + 1 }
  | .timeouts => { bk with timeouts := bk.timeouts + 1 }
  | .ignores => { bk with ignores := bk.ignores + 1 }

/-- The _calculateMetrics loop: accumulate errors and totals over the
retained buckets, then divide.  The pair accumulator mirrors the two
running sums of the source loop. -/
def _calculateMetrics (buckets : List Bucket) : Metrics :=
  let counts := buckets.foldl
    (fun acc bucket =>
      let errors := bucket.failures + bucket.timeouts
      (acc.1 + (errors + bucket.successes), acc.2 + errors))
    ((0 : Nat), (0 : Nat))
  let totalCount := counts.1
  let errorCount := counts.2
  let errorPercentage : ℚ :=
    ((errorCount : ℚ) / (if totalCount > 0 then (totalCount : ℚ) else 1)) * 100
  { totalCount := totalCount, errorCount := errorCount, errorPercentage := errorPercentage }

/-- isOpen: the live _state field equals OPEN. -/
def CircuitBreaker.isOpen (b : CircuitBreaker) : Bool :=
  decide (b.state = some OPEN)

/-- The _updateState transition of the promise-style variant: in
HALF_OPEN, decide by the active bucket and the aggregate error count
(emitting circuitOpen on the failure path, as this variant does);
otherwise open when both thresholds are strictly exceeded. -/
def _updateState (b : CircuitBreaker) : CircuitBreaker × List CBEvent :=
  let metrics := _calculateMetrics b.buckets
  if b.state = some HALF_OPEN then
    if b._lastBucket.successes = 0 ∧ 0 < metrics.errorCount then
      ({ b with state := some OPEN }, [CBEvent.circuitOpen metrics])
    else
      ({ b with state := some CLOSED }, [CBEvent.circuitClose metrics])
  else
    if metrics.totalCount > b.volumeThreshold ∧ metrics.errorPercentage > b.errorThreshold then
      ({ b with state := some OPEN }, [CBEvent.circuitOpen metrics])
    else
      (b, [])

/-- The body of the increment closure of _executeCommand (the guard
aside): bump the chosen counter of the active bucket, then, when no
force is active, run the automatic state evaluation. -/
def recordOutcome (b : CircuitBreaker) (prop : CounterKind) : CircuitBreaker × List CBEvent :=
  let b1 := { b with buckets := updateLast (fun bk => bk.incr prop) b.buckets }
  if b1.forced = none then _updateState b1 else (b1, [])

/-- forceClose: save the live state into forced and pin CLOSED. -/
def forceClose (b : CircuitBreaker) : CircuitBreaker :=
  { b with forced := b.state, state := some CLOSED }

/-- forceOpen: save the live state into forced and pin OPEN. -/
def forceOpen (b : CircuitBreaker) : CircuitBreaker :=
  { b with forced := b.state, state := some OPEN }

/-- unforce: restore the saved state and clear forced. -/
def unforce (b : CircuitBreaker) : CircuitBreaker :=
  { b with state := b.forced, forced := none }

/-- _incrementShortCircuits on the active bucket. -/
def _incrementShortCircuits (b : CircuitBreaker) : CircuitBreaker :=
  { b with
      buckets :=
        updateLast (fun bk => { bk with shortCircuits := bk.shortCircuits + 1 }) b.buckets }

/-- One tick of the ticker closure.  The closure variable bucketIndex
is threaded explicitly.  Order follows the source: shift when over
capacity, bump the index, at a window boundary reset the index and
probe HALF_OPEN when isOpen, finally push a fresh bucket. -/
def tick (b : CircuitBreaker) (bucketIndex : Nat) : CircuitBreaker × Nat :=
  let b1 := if b.buckets.length > b.numBuckets then { b with buckets := b.buckets.tail } else b
  let bucketIndex1 := bucketIndex + 1
  let step2 : CircuitBreaker × Nat :=
    if bucketIndex1 > b.numBuckets then
      (if b1.isOpen then { b1 with state := some HALF_OPEN } else b1, 0)
    else
      (b1, bucketIndex1)
  ({ step2.1 with buckets := step2.1.buckets ++ [_createBucket] }, step2.2)

/-- How a promise eventually behaves relative to the deadline: it
resolves first, rejects first, or is still pending when the deadline
fires. -/
inductive PromiseOutcome (T E : Type)
  | resolves (v : T)
  | rejects (e : E)
  | pending
deriving DecidableEq, Repr

/-- How invoking the command itself behaves: a plain return value, a
synchronous throw, or a promise. -/
inductive CommandRun (T E : Type)
  | value (v : T)
  | syncThrow (e : E)
  | promise (p : PromiseOutcome T E)
deriving DecidableEq, Repr

/-- wrapPromise: a returned value becomes a resolved promise, a
synchronous throw becomes a rejected promise, a promise is kept. -/
def wrapPromise {T E : Type} : CommandRun T E → PromiseOutcome T E
  | .value v => .resolves v
  | .syncThrow e => .rejects e
  | .promise p => p

/-- The distinct failures a caller can observe from run. -/
inductive RejectReason (E : Type)
  | circuitOpenError
  | circuitWorkerTimeout
  | commandFailure (e : E)
deriving DecidableEq, Repr

/-- The settlement of the promise returned by run.  The uncaughtThrow
constructor stands for a synchronous fault escaping run; the embedding
proves it is never produced. -/
inductive RunResult (T E : Type)
  | resolved (v : T)
  | rejected (r : RejectReason E)
  | uncaughtThrow (e : E)
deriving DecidableEq, Repr

/-- What one _executeCommand call produces: the updated breaker, the
callback events it emitted, and the result surfaced to the caller. -/
structure ExecOutcome (T E : Type) where
  breaker : CircuitBreaker
  events : List CBEvent
  result : RunResult T E
deriving DecidableEq, Repr

/-- _executeCommand on the race winner: a resolution records a
success; a rejection is classified by circuitFilter into failures or
ignores and the original reason is re-raised; a pending command lets
the deadline record a timeout and raise the distinct timeout error. -/
def _executeCommand {T E : Type} (b : CircuitBreaker) (circuitFilter : E → Bool)
    (p : PromiseOutcome T E) : ExecOutcome T E :=
  match p with
  | .resolves v =>
    let r := recordOutcome b .successes
    ⟨r.1, r.2, .resolved v⟩
  | .rejects reason =>
    if circuitFilter reason then
      let r := recordOutcome b .failures
      ⟨r.1, r.2, .rejected (.commandFailure reason)⟩
    else
      let r := recordOutcome b .ignores
      ⟨r.1, r.2, .rejected (.commandFailure reason)⟩
  | .pending =>
    let r := recordOutcome b .timeouts
    ⟨r.1, r.2, .rejected .circuitWorkerTimeout⟩

/-- What one run call produces, plus whether the command was invoked. -/
structure RunOutcome (T E : Type) where
  breaker : CircuitBreaker
  events : List CBEvent
  result : RunResult T E
  commandInvoked : Bool
deriving DecidableEq, Repr

/-- run of the promise-style variant: when open, bump shortCircuits
and raise CircuitOpenError without touching the command; otherwise
execute the wrapped command. -/
def run {T E : Type} (b : CircuitBreaker) (circuitFilter : E → Bool)
    (command : CommandRun T E) : RunOutcome T E :=
  if b.isOpen then
    ⟨_incrementShortCircuits b, [], .rejected .circuitOpenError, false⟩
  else
    let ex := _executeCommand b circuitFilter (wrapPromise command)
    ⟨ex.breaker, ex.events, ex.result, true⟩

/-- The three callbacks that can fire for one in-flight call: the
promise resolves, the promise rejects, or the deadline timer fires. -/
inductive RaceEvent (E : Type)
  | settleSuccess
  | settleFailure (reason : E)
  | timerFire
deriving DecidableEq, Repr

/-- Which counter each race event records. -/
def raceCounter {E : Type} (circuitFilter : E → Bool) : RaceEvent E → CounterKind
  | .settleSuccess => .successes
  | .settleFailure reason => if circuitFilter reason then .failures else .ignores
  | .timerFire => .timeouts

/-- The per-call picture while racing: the shared breaker, and the
timeout variable as a Boolean (true while the deadline timer is live,
false once the guard has fired). -/
structure CallState where
  breaker : CircuitBreaker
  timeoutActive : Bool
deriving DecidableEq, Repr

/-- A call state plus counts of how many bucket recordings and state
evaluations the processed events performed. -/
structure RaceStep where
  call : CallState
  recordings : Nat
  evaluations : Nat
deriving DecidableEq, Repr

/-- One callback firing: the guard check first (a cleared timeout
variable means return immediately), else record the outcome, evaluate
state when unforced, and clear the timeout variable. -/
def handleRaceEvent {E : Type} (circuitFilter : E → Bool) (s : RaceStep)
    (ev : RaceEvent E) : RaceStep :=
  if s.call.timeoutActive = false then s
  else
    let b := s.call.breaker
    let evals := if b.forced = none then 1 else 0
    let r := recordOutcome b (raceCounter circuitFilter ev)
    ⟨⟨r.1, false⟩, s.recordings + 1, s.evaluations + evals⟩

/-- Process the race callbacks of one call in arrival order. -/
def processRace {E : Type} (circuitFilter : E → Bool) (s : RaceStep) :
    List (RaceEvent E) → RaceStep
  | [] => s
  | ev :: rest => processRace circuitFilter (handleRaceEvent circuitFilter s ev) rest

/-- A run of n sequential recorded failures. -/
def recordFailures : Nat → CircuitBreaker → CircuitBreaker
  | 0, b => b
  | n + 1, b => recordFailures n (recordOutcome b .failures).1

/-!
The callback-style variant of the class.  It differs from the one
above in three ways: its buckets have no ignores counter and there is
no filter, run takes a fallback instead of raising CircuitOpenError,
and the HALF_OPEN failure path emits no event.
-/

namespace CB1

/-- One time slice of counters of the callback-style variant. -/
structure Bucket where
  failures : Nat
  successes : Nat
  timeouts : Nat
  shortCircuits : Nat
deriving DecidableEq, Repr

/-- The fresh empty bucket of the callback-style variant. -/
def _createBucket : Bucket :=
  { failures := 0, successes := 0, timeouts := 0, shortCircuits := 0 }

/-- The breaker object of the callback-style variant. -/
structure CircuitBreaker where
  windowDuration : Nat := 10000
  numBuckets : Nat := 10
  timeoutDuration : Nat := 3000
  errorThreshold : ℚ := 50
  volumeThreshold : Nat := 5
  buckets : List Bucket := [_createBucket]
  state : Option CircuitBreakerStatus := some CLOSED
  forced : Option CircuitBreakerStatus := none
deriving DecidableEq, Repr

/-- The active bucket. -/
def CircuitBreaker._lastBucket (b : CircuitBreaker) : Bucket :=
  b.buckets.getLastD _createBucket

/-- Mutation of the active (last) bucket in place. -/
def updateLast (f : Bucket → Bucket) : List Bucket → List Bucket
  | [] => []
  | [bk] => [f bk]
  | bk :: rest => bk :: updateLast f rest

/-- The _calculateMetrics loop of the callback-style variant. -/
def _calculateMetrics (buckets : List Bucket) : Metrics :=
  let counts := buckets.foldl
    (fun acc bucket =>
      let errors := bucket.failures + bucket.timeouts
      (acc.1 + (errors + bucket.successes), acc.2 + errors))
    ((0 : Nat), (0 : Nat))
  let totalCount := counts.1
  let errorCount := counts.2
  let errorPercentage : ℚ :=
    ((errorCount : ℚ) / (if totalCount > 0 then (totalCount : ℚ) else 1)) * 100
  { totalCount := totalCount, errorCount := errorCount, errorPercentage := errorPercentage }

/-- isOpen of the callback-style variant. -/
def CircuitBreaker.isOpen (b : CircuitBreaker) : Bool :=
  decide (b.state = some OPEN)

/-- _updateState of the callback-style variant: identical transitions,
but no event is emitted when a HALF_OPEN probe fails. -/
def _updateState (b : CircuitBreaker) : CircuitBreaker × List CBEvent :=
  let metrics := _calculateMetrics b.buckets
  if b.state = some HALF_OPEN then
    if b._lastBucket.successes = 0 ∧ 0 < metrics.errorCount then
      ({ b with state := some OPEN }, [])
    else
      ({ b with state := some CLOSED }, [CBEvent.circuitClose metrics])
  else
    if metrics.totalCount > b.volumeThreshold ∧ metrics.errorPercentage > b.errorThreshold then
      ({ b with state := some OPEN }, [CBEvent.circuitOpen metrics])
    else
      (b, [])

/-- Which counter an outcome increments in this variant. -/
inductive CounterKind
  | successes
  | failures
  | timeouts
deriving DecidableEq, Repr

/-- The increment of one counter of a bucket. -/
def Bucket.incr (bk : Bucket) : CounterKind → Bucket
  | .successes => { bk with successes := bk.successes + 1 }
  | .failures => { bk with failures := bk.failures + 1 }
  | .timeouts => { bk with timeouts := bk.timeouts + 1 }

/-- The body of the increment closure of this variant. -/
def recordOutcome (b : CircuitBreaker) (prop : CounterKind) :
    CircuitBreaker × List CBEvent :=
  let b1 := { b with buckets := updateLast (fun bk => bk.incr prop) b.buckets }
  if b1.forced = none then _updateState b1 else (b1, [])

/-- What the callback command does before the deadline: it calls its
success callback, calls its failed callback, or calls neither in time
so the deadline fires. -/
inductive CbOutcome
  | callsSuccess
  | callsFailed
  | neither
deriving DecidableEq, Repr

/-- _executeCommand of the callback-style variant on the race winner. -/
def _executeCommand (b : CircuitBreaker) (outcome : CbOutcome) :
    CircuitBreaker × List CBEvent :=
  match outcome with
  | .callsSuccess => recordOutcome b .successes
  | .callsFailed => recordOutcome b .failures
  | .neither => recordOutcome b .timeouts

/-- _executeFallback: invoke the fallback, then bump shortCircuits. -/
def _executeFallback (b : CircuitBreaker) : CircuitBreaker :=
  { b with
      buckets :=
        updateLast (fun bk => { bk with shortCircuits := bk.shortCircuits + 1 }) b.buckets }

/-- What one run call of this variant produces, with flags for which
of the command and the supplied fallback were invoked. -/
structure RunOutcome where
  breaker : CircuitBreaker
  events : List CBEvent
  commandInvoked : Bool
  fallbackInvoked : Bool
deriving DecidableEq, Repr

/-- run of the callback-style variant: when open, run the supplied
fallback (or the no-op default) and bump shortCircuits; otherwise
execute the command. -/
def run (b : CircuitBreaker) (outcome : CbOutcome) (fallbackSupplied : Bool) : RunOutcome :=
  if b.isOpen then
    ⟨_executeFallback b, [], false, fallbackSupplied⟩
  else
    let r := _executeCommand b outcome
    ⟨r.1, r.2, true, false⟩

end CB1

/-!
Concrete inputs used by the counterexamples and witnesses below.
-/

/-- A HALF_OPEN breaker whose window still holds an old failure while
its active bucket holds a fresh success. -/
def halfOpenCex : CircuitBreaker :=
  { state := some HALF_OPEN
    buckets := [{ _createBucket with failures := 1 }, { _createBucket with successes := 1 }] }

/-- A breaker pinned OPEN by forceOpen while its saved automatic state
is CLOSED. -/
def forcedOpenCex : CircuitBreaker :=
  { state := some OPEN, forced := some CLOSED }

/-- A HALF_OPEN breaker with an empty window, used as a witness input. -/
def halfOpenFresh : CircuitBreaker :=
  { state := some HALF_OPEN }

/-- A breaker whose live state is OPEN, used as a witness input. -/
def openBreaker : CircuitBreaker :=
  { state := some OPEN }

/-- An open breaker of the callback-style variant. -/
def cb1OpenBreaker : CB1.CircuitBreaker :=
  { state := some OPEN }

/-- A breaker with a force in effect, used as a witness input. -/
def forcedBreaker : CircuitBreaker :=
  { state := some CLOSED, forced := some OPEN }

/-- A breaker in HALF_OPEN with a force in effect, used as a witness
input. -/
def halfOpenForcedBreaker : CircuitBreaker :=
  { state := some HALF_OPEN, forced := some OPEN }

/-!
Helper lemmas about the embedded operations.
-/

/-- The state evaluation never touches the bucket store. -/
theorem updateState_buckets (b : CircuitBreaker) : (_updateState b).1.buckets = b.buckets := by
  simp only [_updateState]
  split <;> split <;> rfl

/-- The state evaluation never touches the forced field. -/
theorem updateState_forced (b : CircuitBreaker) : (_updateState b).1.forced = b.forced := by
  simp only [_updateState]
  split <;> split <;> rfl

/-- Recording an outcome bumps exactly the chosen counter of the
active bucket, whatever else it does. -/
theorem recordOutcome_buckets (b : CircuitBreaker) (k : CounterKind) :
    (recordOutcome b k).1.buckets = updateLast (fun bk => bk.incr k) b.buckets := by
  simp only [recordOutcome]
  split
  · exact updateState_buckets _
  · rfl

/-- Recording an outcome never touches the forced field. -/
theorem recordOutcome_forced (b : CircuitBreaker) (k : CounterKind) :
    (recordOutcome b k).1.forced = b.forced := by
  simp only [recordOutcome]
  split
  · exact updateState_forced _
  · rfl

/-- Mutating the last bucket in place mutates exactly the last bucket. -/
theorem updateLast_getLastD (f : Bucket → Bucket) (d : Bucket) :
    ∀ (bs : List Bucket), bs ≠ [] →
      (updateLast f bs).getLastD d = f (bs.getLastD d)
  | [], h => absurd rfl h
  | [bk], _ => rfl
  | bk :: bk2 :: rest, _ => by
    rw [show updateLast f (bk :: bk2 :: rest) = bk :: updateLast f (bk2 :: rest) from rfl,
      List.getLastD_cons, List.getLastD_cons]
    exact updateLast_getLastD f bk (bk2 :: rest) (by simp)

/-- Same, for the callback-style variant. -/
theorem cb1_updateLast_getLastD (f : CB1.Bucket → CB1.Bucket) (d : CB1.Bucket) :
    ∀ (bs : List CB1.Bucket), bs ≠ [] →
      (CB1.updateLast f bs).getLastD d = f (bs.getLastD d)
  | [], h => absurd rfl h
  | [bk], _ => rfl
  | bk :: bk2 :: rest, _ => by
    rw [show CB1.updateLast f (bk :: bk2 :: rest) = bk :: CB1.updateLast f (bk2 :: rest) from rfl,
      List.getLastD_cons, List.getLastD_cons]
    exact cb1_updateLast_getLastD f bk (bk2 :: rest) (by simp)

/-- A per-bucket view preserved by the mutation is preserved by the
in-place update of the last bucket. -/
theorem updateLast_map (g : Bucket → Nat) (f : Bucket → Bucket)
    (h : ∀ bk, g (f bk) = g bk) :
    ∀ bs : List Bucket, (updateLast f bs).map g = bs.map g
  | [] => rfl
  | [bk] => by simp [updateLast, h]
  | bk :: bk2 :: rest => by
    simpa [updateLast] using updateLast_map g f h (bk2 :: rest)

/-- The metrics loop computes the two running sums. -/
theorem metrics_foldl (bs : List Bucket) (t e : Nat) :
    bs.foldl
      (fun acc bucket =>
        let errors := bucket.failures + bucket.timeouts
        (acc.1 + (errors + bucket.successes), acc.2 + errors))
      ((t : Nat), (e : Nat))
    = (t + (bs.map (fun bk => bk.failures + bk.timeouts + bk.successes)).sum,
       e + (bs.map (fun bk => bk.failures + bk.timeouts)).sum) := by
  induction bs generalizing t e with
  | nil => simp
  | cons bk rest ih =>
    simp only [List.foldl_cons, List.map_cons, List.sum_cons, ih]
    simp only [Prod.mk.injEq]
    omega

/-- A recorded outcome can only leave the breaker in HALF_OPEN if it
already was HALF_OPEN: the executor never performs that transition. -/
theorem recordOutcome_no_halfOpen (b : CircuitBreaker) (k : CounterKind)
    (h : (recordOutcome b k).1.state = some HALF_OPEN) : b.state = some HALF_OPEN := by
  revert h
  simp only [recordOutcome]
  split
  · simp only [_updateState]
    split
    · intro _
      assumption
    · split
      · intro h
        simp at h
      · intro h
        exact h
  · intro h
    exact h

/-- Closed form of the metrics calculation. -/
theorem calculateMetrics_eq (bs : List Bucket) :
    _calculateMetrics bs =
      { totalCount := (bs.map (fun bk => bk.failures + bk.timeouts + bk.successes)).sum
        errorCount := (bs.map (fun bk => bk.failures + bk.timeouts)).sum
        errorPercentage :=
          ((((bs.map (fun bk => bk.failures + bk.timeouts)).sum : Nat) : ℚ)
            / (if ((bs.map (fun bk => bk.failures + bk.timeouts + bk.successes)).sum : Nat) > 0
                then (((bs.map (fun bk => bk.failures + bk.timeouts + bk.successes)).sum : Nat) : ℚ)
                else 1))
            * 100 } := by
  have h := metrics_foldl bs 0 0
  simp only [_calculateMetrics, h, Nat.zero_add]

/-!
Claim theorems.
-/

/-- Claim C6: with no force active, forceClose and forceOpen save the
current (automatic) state into forced and pin the live state to CLOSED
resp. OPEN; while forced is set, a recorded outcome still bumps the
chosen counter of the active bucket but leaves state and forced
untouched and invokes no callback; unforce restores the saved state
into the live state and clears forced. -/
theorem force_pins_and_suspends_evaluation
    (b bf : CircuitBreaker) (k : CounterKind)
    (hb : b.forced = none) (hf : bf.forced ≠ none) :
    (forceClose b).forced = b.state ∧ (forceClose b).state = some CLOSED
    ∧ (forceOpen b).forced = b.state ∧ (forceOpen b).state = some OPEN
    ∧ (recordOutcome bf k).1.state = bf.state
    ∧ (recordOutcome bf k).1.forced = bf.forced
    ∧ (recordOutcome bf k).1.buckets = updateLast (fun bk => bk.incr k) bf.buckets
    ∧ (recordOutcome bf k).2 = []
    ∧ unforce b = { b with state := b.forced, forced := none }
    ∧ unforce bf = { bf with state := bf.forced, forced := none } := by
  have hrec : recordOutcome bf k
      = ({ bf with buckets := updateLast (fun bk => bk.incr k) bf.buckets }, []) := by
    simp only [recordOutcome]
    rw [if_neg]
    exact hf
  rw [hrec]
  exact ⟨rfl, rfl, rfl, rfl, rfl, rfl, rfl, rfl, rfl, rfl⟩

/-- Claim C6 witness: the theorem applied to the default breaker and a
concretely forced breaker. -/
theorem force_pins_and_suspends_evaluation_witness :
    defaultBreaker.forced = none ∧ forcedBreaker.forced ≠ none
    ∧ (recordOutcome forcedBreaker CounterKind.failures).2 = []
    ∧ (forceOpen defaultBreaker).state = some OPEN :=
  ⟨rfl, by decide,
    (force_pins_and_suspends_evaluation defaultBreaker forcedBreaker .failures rfl
      (by decide)).2.2.2.2.2.2.2.1,
    (force_pins_and_suspends_evaluation defaultBreaker forcedBreaker .failures rfl
      (by decide)).2.2.2.1⟩

/-- Claim C10: with a force already active, forcing again saves the
currently pinned state (not the original automatic state) into forced,
so unforce afterwards restores the pinned state; in particular two
consecutive forceOpen calls followed by unforce leave the breaker
reporting open, from any starting state. -/
theorem repeated_force_overwrites_saved_state
    (b bf : CircuitBreaker) (hf : bf.forced ≠ none) :
    (forceOpen bf).forced = bf.state
    ∧ (forceClose bf).forced = bf.state
    ∧ (unforce (forceOpen (forceOpen b))).state = some OPEN
    ∧ (unforce (forceOpen (forceOpen b))).isOpen = true
    ∧ (unforce (forceClose (forceClose b))).state = some CLOSED := by
  exact ⟨rfl, rfl, rfl, rfl, rfl⟩

/-- Claim C10 witness: the theorem applied to a concretely forced
breaker. -/
theorem repeated_force_overwrites_saved_state_witness :
    forcedBreaker.forced ≠ none
    ∧ (unforce (forceOpen (forceOpen defaultBreaker))).isOpen = true :=
  ⟨by decide,
    (repeated_force_overwrites_saved_state defaultBreaker forcedBreaker (by decide)).2.2.2.1⟩

/-- Claim C7 (amended): each tick rotates the bucket store (dropping
the oldest bucket when over capacity and appending a fresh one) and
increments the tick counter; exactly when the counter exceeds
numBuckets it is reset to zero and, if the live state is then OPEN --
the live state, which while a force is active is the pinned state, not
the saved automatic state -- the live state becomes HALF_OPEN; the
outcome-recording path of the command executor never produces the
HALF_OPEN state. -/
theorem ticker_rotation_and_probe (b bh : CircuitBreaker) (i : Nat) (k : CounterKind)
    (hh : (recordOutcome bh k).1.state = some HALF_OPEN) :
    ((tick b i).2 = if i + 1 > b.numBuckets then 0 else i + 1)
    ∧ ((tick b i).1.state
        = if i + 1 > b.numBuckets ∧ b.isOpen = true then some HALF_OPEN else b.state)
    ∧ ((tick b i).1.buckets
        = (if b.buckets.length > b.numBuckets then b.buckets.tail else b.buckets)
            ++ [_createBucket])
    ∧ (tick b i).1.forced = b.forced
    ∧ bh.state = some HALF_OPEN := by
  refine ⟨?_, ?_, ?_, ?_, recordOutcome_no_halfOpen bh k hh⟩ <;>
  · simp only [tick]
    by_cases hlen : b.buckets.length > b.numBuckets <;>
      by_cases hidx : i + 1 > b.numBuckets <;>
        simp [hlen, hidx, CircuitBreaker.isOpen] <;>
          by_cases hopen : b.state = some OPEN <;>
            simp [hopen]

/-- Claim C7 counterexample: a breaker pinned OPEN by forceOpen, whose
saved automatic state is CLOSED, is still flipped to HALF_OPEN by the
window-boundary tick, because the tick inspects the live pinned state
rather than the saved automatic state. -/
theorem ticker_probes_pinned_not_automatic_state :
    forcedOpenCex.forced = some CLOSED
    ∧ (tick forcedOpenCex 10).1.state = some HALF_OPEN
    ∧ (tick forcedOpenCex 10).1.forced = some CLOSED
    ∧ (tick forcedOpenCex 10).2 = 0 :=
  ⟨rfl, rfl, rfl, rfl⟩

/-- Claim C7 witness: the theorem applied at a concrete breaker and
tick counter, with the executor hypothesis discharged at a breaker
already in HALF_OPEN under a force. -/
theorem ticker_rotation_and_probe_witness :
    (recordOutcome halfOpenForcedBreaker CounterKind.successes).1.state = some HALF_OPEN
    ∧ (tick defaultBreaker 0).2 = if 0 + 1 > defaultBreaker.numBuckets then 0 else 0 + 1 :=
  ⟨by decide,
    (ticker_rotation_and_probe defaultBreaker halfOpenForcedBreaker 0 .successes (by decide)).1⟩

/-- Claim C5: while isOpen reports true, run never invokes the
command; the promise-style variant records a shortCircuits increment
and rejects with the distinct CircuitOpenError, the callback-style
variant invokes the supplied fallback and records a shortCircuits
increment; neither touches the successes counter. -/
theorem run_when_open_short_circuits
    (T E : Type) (b : CircuitBreaker) (circuitFilter : E → Bool) (command : CommandRun T E)
    (b1 : CB1.CircuitBreaker) (outcome : CB1.CbOutcome) (fallbackSupplied : Bool)
    (hopen : b.isOpen = true) (hne : b.buckets ≠ [])
    (hopen1 : b1.isOpen = true) (hne1 : b1.buckets ≠ []) :
    (run b circuitFilter command).commandInvoked = false
    ∧ (run b circuitFilter command).result = RunResult.rejected RejectReason.circuitOpenError
    ∧ (run b circuitFilter command).events = []
    ∧ (run b circuitFilter command).breaker._lastBucket.shortCircuits
        = b._lastBucket.shortCircuits + 1
    ∧ (run b circuitFilter command).breaker._lastBucket.successes = b._lastBucket.successes
    ∧ (CB1.run b1 outcome fallbackSupplied).commandInvoked = false
    ∧ (CB1.run b1 outcome fallbackSupplied).fallbackInvoked = fallbackSupplied
    ∧ (CB1.run b1 outcome fallbackSupplied).breaker._lastBucket.shortCircuits
        = b1._lastBucket.shortCircuits + 1
    ∧ (CB1.run b1 outcome fallbackSupplied).breaker._lastBucket.successes
        = b1._lastBucket.successes := by
  have hrun : run b circuitFilter command
      = ⟨_incrementShortCircuits b, [], .rejected .circuitOpenError, false⟩ := by
    simp [run, hopen]
  have hrun1 : CB1.run b1 outcome fallbackSupplied
      = ⟨CB1._executeFallback b1, [], false, fallbackSupplied⟩ := by
    simp [CB1.run, hopen1]
  have hlast : (_incrementShortCircuits b)._lastBucket
      = { b._lastBucket with shortCircuits := b._lastBucket.shortCircuits + 1 } := by
    simp only [_incrementShortCircuits, CircuitBreaker._lastBucket]
    exact updateLast_getLastD _ _ b.buckets hne
  have hlast1 : (CB1._executeFallback b1)._lastBucket
      = { b1._lastBucket with shortCircuits := b1._lastBucket.shortCircuits + 1 } := by
    simp only [CB1._executeFallback, CB1.CircuitBreaker._lastBucket]
    exact cb1_updateLast_getLastD _ _ b1.buckets hne1
  rw [hrun, hrun1]
  exact ⟨rfl, rfl, rfl, by rw [hlast], by rw [hlast], rfl, rfl, by rw [hlast1], by rw [hlast1]⟩

/-- Claim C5 witness: the theorem applied at concretely open breakers
of both variants. -/
theorem run_when_open_short_circuits_witness :
    openBreaker.isOpen = true ∧ cb1OpenBreaker.isOpen = true
    ∧ (run openBreaker (fun _ : Nat => true)
        (CommandRun.value (0 : Nat))).commandInvoked = false
    ∧ (CB1.run cb1OpenBreaker CB1.CbOutcome.callsSuccess true).fallbackInvoked = true :=
  ⟨by decide, by decide,
    (run_when_open_short_circuits Nat Nat openBreaker (fun _ => true) (.value 0)
      cb1OpenBreaker .callsSuccess true (by decide) (by decide) (by decide) (by decide)).1,
    (run_when_open_short_circuits Nat Nat openBreaker (fun _ => true) (.value 0)
      cb1OpenBreaker .callsSuccess true (by decide) (by decide) (by decide)
      (by decide)).2.2.2.2.2.2.1⟩

/-- Claim C4: the per-call guard makes the race winner the only actor:
processing any callback sequence from a cleared guard changes nothing;
from a live guard the first callback alone records (the resulting
breaker is exactly that one recording) and any suffix of late
callbacks is discarded; over any callback sequence at most one bucket
recording and at most one state evaluation happen. -/
theorem race_winner_decides_once {E : Type} (circuitFilter : E → Bool) :
    (∀ (s : RaceStep) (events : List (RaceEvent E)),
        s.call.timeoutActive = false →
          processRace circuitFilter s events = s)
    ∧ (∀ (b : CircuitBreaker) (ev : RaceEvent E) (rest : List (RaceEvent E)),
        processRace circuitFilter ⟨⟨b, true⟩, 0, 0⟩ (ev :: rest)
          = ⟨⟨(recordOutcome b (raceCounter circuitFilter ev)).1, false⟩, 1,
              if b.forced = none then 1 else 0⟩)
    ∧ (∀ (b : CircuitBreaker) (events : List (RaceEvent E)),
        (processRace circuitFilter ⟨⟨b, true⟩, 0, 0⟩ events).recordings ≤ 1
        ∧ (processRace circuitFilter ⟨⟨b, true⟩, 0, 0⟩ events).evaluations ≤ 1) := by
  have hinactive : ∀ (s : RaceStep) (events : List (RaceEvent E)),
      s.call.timeoutActive = false → processRace circuitFilter s events = s := by
    intro s events h
    induction events with
    | nil => rfl
    | cons ev rest ih =>
      have hstep : handleRaceEvent circuitFilter s ev = s := by
        simp [handleRaceEvent, h]
      simp only [processRace, hstep]
      exact ih
  have hfirst : ∀ (b : CircuitBreaker) (ev : RaceEvent E) (rest : List (RaceEvent E)),
      processRace circuitFilter ⟨⟨b, true⟩, 0, 0⟩ (ev :: rest)
        = ⟨⟨(recordOutcome b (raceCounter circuitFilter ev)).1, false⟩, 1,
            if b.forced = none then 1 else 0⟩ := by
    intro b ev rest
    have hstep : handleRaceEvent circuitFilter ⟨⟨b, true⟩, 0, 0⟩ ev
        = ⟨⟨(recordOutcome b (raceCounter circuitFilter ev)).1, false⟩, 1,
            if b.forced = none then 1 else 0⟩ := by
      simp [handleRaceEvent]
    simp only [processRace, hstep]
    exact hinactive _ rest rfl
  refine ⟨hinactive, hfirst, ?_⟩
  intro b events
  cases events with
  | nil => exact ⟨Nat.zero_le 1, Nat.zero_le 1⟩
  | cons ev rest =>
    rw [hfirst b ev rest]
    refine ⟨Nat.le_refl 1, ?_⟩
    by_cases hf : b.forced = none <;> simp [hf]

/-- Claim C4 witness: the theorem applied with a cleared guard and a
concrete late-callback sequence. -/
theorem race_winner_decides_once_witness :
    (⟨⟨defaultBreaker, false⟩, 0, 0⟩ : RaceStep).call.timeoutActive = false
    ∧ processRace (fun _ : Nat => true) ⟨⟨defaultBreaker, false⟩, 0, 0⟩
        [RaceEvent.timerFire, RaceEvent.settleSuccess]
      = ⟨⟨defaultBreaker, false⟩, 0, 0⟩ :=
  ⟨rfl, (race_winner_decides_once (fun _ : Nat => true)).1 ⟨⟨defaultBreaker, false⟩, 0, 0⟩
    [RaceEvent.timerFire, RaceEvent.settleSuccess] rfl⟩

/-- Incrementing the ignores counter of the active bucket leaves the
metrics untouched. -/
theorem calculateMetrics_incr_ignores (bs : List Bucket) :
    _calculateMetrics (updateLast (fun bk => bk.incr .ignores) bs) = _calculateMetrics bs := by
  rw [calculateMetrics_eq, calculateMetrics_eq,
    updateLast_map (fun bk => bk.failures + bk.timeouts + bk.successes)
      (fun bk => bk.incr .ignores) (fun bk => rfl),
    updateLast_map (fun bk => bk.failures + bk.timeouts)
      (fun bk => bk.incr .ignores) (fun bk => rfl)]

/-- Claim C8: a rejection that wins its race is classified by the
configured filter: a reason the filter rejects bumps ignores and
leaves every metric (so totalCount and errorPercentage) unchanged,
a reason the filter accepts bumps failures; in both cases the original
reason is surfaced to the caller unchanged. -/
theorem rejection_classified_by_filter
    (T E : Type) (b : CircuitBreaker) (circuitFilter : E → Bool) (rIgn rCnt : E)
    (hIgn : circuitFilter rIgn = false) (hCnt : circuitFilter rCnt = true) :
    ((_executeCommand b circuitFilter (PromiseOutcome.rejects rIgn) : ExecOutcome T E)
        |>.breaker.buckets) = updateLast (fun bk => bk.incr .ignores) b.buckets
    ∧ _calculateMetrics ((_executeCommand b circuitFilter (PromiseOutcome.rejects rIgn)
        : ExecOutcome T E).breaker.buckets) = _calculateMetrics b.buckets
    ∧ (_executeCommand b circuitFilter (PromiseOutcome.rejects rIgn) : ExecOutcome T E).result
        = RunResult.rejected (RejectReason.commandFailure rIgn)
    ∧ ((_executeCommand b circuitFilter (PromiseOutcome.rejects rCnt) : ExecOutcome T E)
        |>.breaker.buckets) = updateLast (fun bk => bk.incr .failures) b.buckets
    ∧ (_executeCommand b circuitFilter (PromiseOutcome.rejects rCnt) : ExecOutcome T E).result
        = RunResult.rejected (RejectReason.commandFailure rCnt) := by
  have h1 : (_executeCommand b circuitFilter (PromiseOutcome.rejects rIgn) : ExecOutcome T E)
      = ⟨(recordOutcome b .ignores).1, (recordOutcome b .ignores).2,
          RunResult.rejected (RejectReason.commandFailure rIgn)⟩ := by
    simp [_executeCommand, hIgn]
  have h2 : (_executeCommand b circuitFilter (PromiseOutcome.rejects rCnt) : ExecOutcome T E)
      = ⟨(recordOutcome b .failures).1, (recordOutcome b .failures).2,
          RunResult.rejected (RejectReason.commandFailure rCnt)⟩ := by
    simp [_executeCommand, hCnt]
  rw [h1, h2]
  refine ⟨recordOutcome_buckets b .ignores, ?_, rfl, recordOutcome_buckets b .failures, rfl⟩
  rw [recordOutcome_buckets b .ignores]
  exact calculateMetrics_incr_ignores b.buckets

/-- Claim C8 witness: the theorem applied with a concrete filter that
ignores reason 0 and counts reason 1. -/
theorem rejection_classified_by_filter_witness :
    ((fun n : Nat => decide (n = 1)) 0 = false)
    ∧ ((fun n : Nat => decide (n = 1)) 1 = true)
    ∧ (_executeCommand defaultBreaker (fun n : Nat => decide (n = 1))
        (PromiseOutcome.rejects 0) : ExecOutcome Nat Nat).result
      = RunResult.rejected (RejectReason.commandFailure 0) :=
  ⟨rfl, rfl,
    (rejection_classified_by_filter Nat Nat defaultBreaker (fun n => decide (n = 1)) 0 1
      rfl rfl).2.2.1⟩

/-- Claim C9: a command that throws synchronously is normalized by
wrapPromise into exactly the asynchronous rejection pathway: run
treats it identically to a rejected promise with the same reason, the
caller observes a rejection carrying that reason, and run never
surfaces an uncaught synchronous fault. -/
theorem syncThrow_same_as_async_rejection
    (T E : Type) (b : CircuitBreaker) (circuitFilter : E → Bool) (e : E)
    (hclosed : b.isOpen = false) :
    (run b circuitFilter (CommandRun.syncThrow e) : RunOutcome T E)
        = run b circuitFilter (CommandRun.promise (PromiseOutcome.rejects e))
    ∧ (run b circuitFilter (CommandRun.syncThrow e) : RunOutcome T E).result
        = RunResult.rejected (RejectReason.commandFailure e)
    ∧ (∀ (command : CommandRun T E) (e2 : E),
        (run b circuitFilter command).result ≠ RunResult.uncaughtThrow e2) := by
  refine ⟨rfl, ?_, ?_⟩
  · simp only [run, hclosed]
    by_cases hf : circuitFilter e <;> simp [_executeCommand, wrapPromise, hf]
  · intro command e2
    simp only [run]
    split
    · simp
    · rcases hw : wrapPromise (T := T) (E := E) command with v | er | _ <;>
        simp only [_executeCommand]
      · simp
      · by_cases hf : circuitFilter er <;> simp [hf]
      · simp

/-- Claim C9 witness: the theorem applied at the default (closed)
breaker with a concrete thrown reason. -/
theorem syncThrow_same_as_async_rejection_witness :
    defaultBreaker.isOpen = false
    ∧ (run defaultBreaker (fun _ : Nat => true) (CommandRun.syncThrow (7 : Nat))
        : RunOutcome Nat Nat).result
      = RunResult.rejected (RejectReason.commandFailure 7) :=
  ⟨by decide,
    (syncThrow_same_as_async_rejection Nat Nat defaultBreaker (fun _ => true) 7
      (by decide)).2.1⟩

/-- Claim C2: the metrics calculation is the pure aggregation
totalCount = sum of successes+failures+timeouts, errorCount = sum of
failures+timeouts, errorPercentage = errorCount / max(totalCount,1) *
100 over the retained buckets; any rewriting of the ignores and
shortCircuits counters leaves the result unchanged, so those two never
contribute. -/
theorem calculateMetrics_pure_sums
    (bs : List Bucket) (f : Bucket → Bucket)
    (hf : ∀ bk, (f bk).successes = bk.successes ∧ (f bk).failures = bk.failures
        ∧ (f bk).timeouts = bk.timeouts) :
    (_calculateMetrics bs).totalCount
        = (bs.map (fun bk => bk.successes + bk.failures + bk.timeouts)).sum
    ∧ (_calculateMetrics bs).errorCount = (bs.map (fun bk => bk.failures + bk.timeouts)).sum
    ∧ (_calculateMetrics bs).errorPercentage
        = ((_calculateMetrics bs).errorCount : ℚ)
            / ((max (_calculateMetrics bs).totalCount 1 : Nat) : ℚ) * 100
    ∧ _calculateMetrics (bs.map f) = _calculateMetrics bs := by
  have hfun : (fun (bk : Bucket) => bk.failures + bk.timeouts + bk.successes)
      = fun bk => bk.successes + bk.failures + bk.timeouts := funext fun bk => by omega
  have hmax : ∀ t : Nat, (if t > 0 then (t : ℚ) else 1) = ((max t 1 : Nat) : ℚ) := by
    intro t
    cases t with
    | zero => simp
    | succ n => simp [Nat.max_eq_left (Nat.succ_le_succ (Nat.zero_le n))]
  have hcomp : ∀ (g : Bucket → Nat), (∀ bk, g (f bk) = g bk) →
      ∀ l : List Bucket, (l.map f).map g = l.map g := by
    intro g hg l
    induction l with
    | nil => rfl
    | cons x xs ih => simp [ih, hg]
  refine ⟨?_, ?_, ?_, ?_⟩
  · rw [calculateMetrics_eq, hfun]
  · rw [calculateMetrics_eq]
  · rw [calculateMetrics_eq, hmax]
  · rw [calculateMetrics_eq bs, calculateMetrics_eq (bs.map f),
      hcomp (fun bk => bk.failures + bk.timeouts + bk.successes)
        (fun bk => by
          obtain ⟨h1, h2, h3⟩ := hf bk
          show (f bk).failures + (f bk).timeouts + (f bk).successes
              = bk.failures + bk.timeouts + bk.successes
          omega) bs,
      hcomp (fun bk => bk.failures + bk.timeouts)
        (fun bk => by
          obtain ⟨h1, h2, h3⟩ := hf bk
          show (f bk).failures + (f bk).timeouts = bk.failures + bk.timeouts
          omega) bs]

/-- Claim C2 witness: the theorem applied to a concrete bucket list
and a concrete rewrite of the ignores and shortCircuits counters. -/
theorem calculateMetrics_pure_sums_witness :
    (∀ bk : Bucket,
      ((fun bk : Bucket => { bk with ignores := 7, shortCircuits := 3 }) bk).successes
          = bk.successes
      ∧ ((fun bk : Bucket => { bk with ignores := 7, shortCircuits := 3 }) bk).failures
          = bk.failures
      ∧ ((fun bk : Bucket => { bk with ignores := 7, shortCircuits := 3 }) bk).timeouts
          = bk.timeouts)
    ∧ _calculateMetrics
        (([⟨2, 1, 1, 5, 4⟩] : List Bucket).map
          (fun bk : Bucket => { bk with ignores := 7, shortCircuits := 3 }))
      = _calculateMetrics ([⟨2, 1, 1, 5, 4⟩] : List Bucket) :=
  ⟨fun _ => ⟨rfl, rfl, rfl⟩,
    (calculateMetrics_pure_sums ([⟨2, 1, 1, 5, 4⟩] : List Bucket)
      (fun bk : Bucket => { bk with ignores := 7, shortCircuits := 3 })
      (fun _ => ⟨rfl, rfl, rfl⟩)).2.2.2⟩

/-- Claim C3 (amended): in HALF_OPEN, the step after a recorded
outcome closes the circuit and invokes onCircuitClose exactly when the
active bucket has at least one success OR the aggregate errorCount is
zero; it opens the circuit exactly when the active bucket has no
success AND the aggregate errorCount is positive. -/
theorem halfOpen_decision_iff
    (b : CircuitBreaker) (h : b.state = some HALF_OPEN) :
    (((_updateState b).1.state = some CLOSED
        ∧ (_updateState b).2 = [CBEvent.circuitClose (_calculateMetrics b.buckets)])
      ↔ (0 < b._lastBucket.successes ∨ (_calculateMetrics b.buckets).errorCount = 0))
    ∧ (((_updateState b).1.state = some OPEN
        ∧ (_updateState b).2 = [CBEvent.circuitOpen (_calculateMetrics b.buckets)])
      ↔ (b._lastBucket.successes = 0 ∧ 0 < (_calculateMetrics b.buckets).errorCount)) := by
  by_cases hc : b._lastBucket.successes = 0 ∧ 0 < (_calculateMetrics b.buckets).errorCount
  · have hupd : _updateState b
        = ({ b with state := some OPEN }, [CBEvent.circuitOpen (_calculateMetrics b.buckets)]) := by
      simp only [_updateState]
      rw [if_pos h, if_pos hc]
    rw [hupd]
    constructor
    · constructor
      · rintro ⟨hst, _⟩
        exact absurd hst (by simp)
      · intro hor
        rcases hc with ⟨h1, h2⟩
        rcases hor with h3 | h3 <;> omega
    · exact ⟨fun _ => hc, fun _ => ⟨rfl, rfl⟩⟩
  · have hupd : _updateState b
        = ({ b with state := some CLOSED },
            [CBEvent.circuitClose (_calculateMetrics b.buckets)]) := by
      simp only [_updateState]
      rw [if_pos h, if_neg hc]
    rw [hupd]
    constructor
    · constructor
      · intro _
        by_cases hsucc : b._lastBucket.successes = 0
        · right
          by_contra herr
          exact hc ⟨hsucc, by omega⟩
        · left
          omega
      · exact fun _ => ⟨rfl, rfl⟩
    · constructor
      · rintro ⟨hst, _⟩
        exact absurd hst (by simp)
      · intro hand
        exact absurd hand hc

/-- Claim C3 counterexample: a HALF_OPEN breaker whose active bucket
holds a success while an older retained bucket still holds a failure:
the aggregate errorCount is 1, not 0, yet the step still transitions
to CLOSED and invokes onCircuitClose, refuting the claimed only-if
condition (at least one success AND errorCount equal to zero). -/
theorem halfOpen_closes_despite_nonzero_errors :
    halfOpenCex.state = some HALF_OPEN
    ∧ (_updateState halfOpenCex).1.state = some CLOSED
    ∧ (_updateState halfOpenCex).2
        = [CBEvent.circuitClose (_calculateMetrics halfOpenCex.buckets)]
    ∧ (_calculateMetrics halfOpenCex.buckets).errorCount = 1
    ∧ 0 < halfOpenCex._lastBucket.successes :=
  ⟨rfl, rfl, rfl, rfl, by decide⟩

/-- Claim C3 witness: the amended theorem applied to a fresh HALF_OPEN
breaker. -/
theorem halfOpen_decision_iff_witness :
    halfOpenFresh.state = some HALF_OPEN
    ∧ (((_updateState halfOpenFresh).1.state = some CLOSED
        ∧ (_updateState halfOpenFresh).2
            = [CBEvent.circuitClose (_calculateMetrics halfOpenFresh.buckets)])
      ↔ (0 < halfOpenFresh._lastBucket.successes
          ∨ (_calculateMetrics halfOpenFresh.buckets).errorCount = 0)) :=
  ⟨rfl, (halfOpen_decision_iff halfOpenFresh rfl).1⟩


/-- In any state other than HALF_OPEN, the evaluation opens the
circuit and emits circuitOpen exactly when both thresholds are
strictly exceeded. -/
theorem updateState_else_iff (b : CircuitBreaker) (hs : b.state ≠ some HALF_OPEN) :
    ((_updateState b).1.state = some OPEN
      ∧ CBEvent.circuitOpen (_calculateMetrics b.buckets) ∈ (_updateState b).2)
    ↔ ((_calculateMetrics b.buckets).totalCount > b.volumeThreshold
        ∧ (_calculateMetrics b.buckets).errorPercentage > b.errorThreshold) := by
  by_cases hc : (_calculateMetrics b.buckets).totalCount > b.volumeThreshold
      ∧ (_calculateMetrics b.buckets).errorPercentage > b.errorThreshold
  · have h1 : _updateState b
        = ({ b with state := some OPEN },
            [CBEvent.circuitOpen (_calculateMetrics b.buckets)]) := by
      simp only [_updateState]
      rw [if_neg hs, if_pos hc]
    rw [h1]
    exact ⟨fun _ => hc, fun _ => ⟨rfl, by simp⟩⟩
  · have h1 : _updateState b = (b, []) := by
      simp only [_updateState]
      rw [if_neg hs, if_neg hc]
    rw [h1]
    constructor
    · rintro ⟨_, hmem⟩
      simp at hmem
    · intro hcc
      exact absurd hcc hc

/-- Claim C1: with no force active and the automatic state not
HALF_OPEN, the evaluation performed after a recorded outcome sets the
state to OPEN and invokes onCircuitOpen exactly when totalCount
strictly exceeds volumeThreshold and errorPercentage strictly exceeds
errorThreshold over the retained window; under the default
configuration six sequential recorded failures open the circuit while
five do not. -/
theorem closed_opens_iff_over_thresholds
    (b : CircuitBreaker) (k : CounterKind)
    (hf : b.forced = none) (hs : b.state ≠ some HALF_OPEN) :
    (((recordOutcome b k).1.state = some OPEN
        ∧ CBEvent.circuitOpen (_calculateMetrics (recordOutcome b k).1.buckets)
            ∈ (recordOutcome b k).2)
      ↔ ((_calculateMetrics (recordOutcome b k).1.buckets).totalCount > b.volumeThreshold
          ∧ (_calculateMetrics (recordOutcome b k).1.buckets).errorPercentage
              > b.errorThreshold))
    ∧ (recordFailures 6 defaultBreaker).isOpen = true
    ∧ (recordFailures 5 defaultBreaker).isOpen = false := by
  have s1 : (recordOutcome defaultBreaker CounterKind.failures).1
      = ({ buckets := [⟨1, 0, 0, 0, 0⟩] } : CircuitBreaker) := by
    norm_num [recordOutcome, _updateState, _calculateMetrics, updateLast, Bucket.incr,
      defaultBreaker, _createBucket, CircuitBreaker._lastBucket]
    all_goals decide
  have s2 : (recordOutcome ({ buckets := [⟨1, 0, 0, 0, 0⟩] } : CircuitBreaker)
        CounterKind.failures).1
      = ({ buckets := [⟨2, 0, 0, 0, 0⟩] } : CircuitBreaker) := by
    norm_num [recordOutcome, _updateState, _calculateMetrics, updateLast, Bucket.incr,
      _createBucket, CircuitBreaker._lastBucket]
    all_goals decide
  have s3 : (recordOutcome ({ buckets := [⟨2, 0, 0, 0, 0⟩] } : CircuitBreaker)
        CounterKind.failures).1
      = ({ buckets := [⟨3, 0, 0, 0, 0⟩] } : CircuitBreaker) := by
    norm_num [recordOutcome, _updateState, _calculateMetrics, updateLast, Bucket.incr,
      _createBucket, CircuitBreaker._lastBucket]
    all_goals decide
  have s4 : (recordOutcome ({ buckets := [⟨3, 0, 0, 0, 0⟩] } : CircuitBreaker)
        CounterKind.failures).1
      = ({ buckets := [⟨4, 0, 0, 0, 0⟩] } : CircuitBreaker) := by
    norm_num [recordOutcome, _updateState, _calculateMetrics, updateLast, Bucket.incr,
      _createBucket, CircuitBreaker._lastBucket]
    all_goals decide
  have s5 : (recordOutcome ({ buckets := [⟨4, 0, 0, 0, 0⟩] } : CircuitBreaker)
        CounterKind.failures).1
      = ({ buckets := [⟨5, 0, 0, 0, 0⟩] } : CircuitBreaker) := by
    norm_num [recordOutcome, _updateState, _calculateMetrics, updateLast, Bucket.incr,
      _createBucket, CircuitBreaker._lastBucket]
    all_goals decide
  have s6 : (recordOutcome ({ buckets := [⟨5, 0, 0, 0, 0⟩] } : CircuitBreaker)
        CounterKind.failures).1
      = ({ buckets := [⟨6, 0, 0, 0, 0⟩], state := some OPEN } : CircuitBreaker) := by
    norm_num [recordOutcome, _updateState, _calculateMetrics, updateLast, Bucket.incr,
      _createBucket, CircuitBreaker._lastBucket]
    all_goals decide
  have hchain5 : recordFailures 5 defaultBreaker
      = ({ buckets := [⟨5, 0, 0, 0, 0⟩] } : CircuitBreaker) := by
    rw [show recordFailures 5 defaultBreaker
          = recordFailures 4 (recordOutcome defaultBreaker CounterKind.failures).1 from rfl,
      s1,
      show recordFailures 4 ({ buckets := [⟨1, 0, 0, 0, 0⟩] } : CircuitBreaker)
          = recordFailures 3 (recordOutcome ({ buckets := [⟨1, 0, 0, 0, 0⟩] } : CircuitBreaker)
              CounterKind.failures).1 from rfl,
      s2,
      show recordFailures 3 ({ buckets := [⟨2, 0, 0, 0, 0⟩] } : CircuitBreaker)
          = recordFailures 2 (recordOutcome ({ buckets := [⟨2, 0, 0, 0, 0⟩] } : CircuitBreaker)
              CounterKind.failures).1 from rfl,
      s3,
      show recordFailures 2 ({ buckets := [⟨3, 0, 0, 0, 0⟩] } : CircuitBreaker)
          = recordFailures 1 (recordOutcome ({ buckets := [⟨3, 0, 0, 0, 0⟩] } : CircuitBreaker)
              CounterKind.failures).1 from rfl,
      s4,
      show recordFailures 1 ({ buckets := [⟨4, 0, 0, 0, 0⟩] } : CircuitBreaker)
          = recordFailures 0 (recordOutcome ({ buckets := [⟨4, 0, 0, 0, 0⟩] } : CircuitBreaker)
              CounterKind.failures).1 from rfl,
      s5]
    rfl
  have hchain6 : recordFailures 6 defaultBreaker
      = ({ buckets := [⟨6, 0, 0, 0, 0⟩], state := some OPEN } : CircuitBreaker) := by
    rw [show recordFailures 6 defaultBreaker
          = recordFailures 1 (recordFailures 5 defaultBreaker) from rfl]
    rw [hchain5]
    rw [show recordFailures 1 ({ buckets := [⟨5, 0, 0, 0, 0⟩] } : CircuitBreaker)
          = recordFailures 0 (recordOutcome ({ buckets := [⟨5, 0, 0, 0, 0⟩] } : CircuitBreaker)
              CounterKind.failures).1 from rfl,
      s6]
    rfl
  refine ⟨?_, ?_, ?_⟩
  · have hro : recordOutcome b k
        = _updateState { b with buckets := updateLast (fun bk => bk.incr k) b.buckets } := by
      simp only [recordOutcome]
      rw [if_pos]
      exact hf
    rw [hro, updateState_buckets]
    exact updateState_else_iff _ hs
  · rw [hchain6]
    rfl
  · rw [hchain5]
    rfl

/-- Claim C1 witness: the theorem applied to the default (closed,
unforced) breaker recording one failure. -/
theorem closed_opens_iff_over_thresholds_witness :
    defaultBreaker.forced = none ∧ defaultBreaker.state ≠ some HALF_OPEN
    ∧ (recordFailures 6 defaultBreaker).isOpen = true :=
  ⟨rfl, by decide,
    (closed_opens_iff_over_thresholds defaultBreaker CounterKind.failures rfl
      (by decide)).2.1⟩
